import Mathlib

/-!
# Verification of the greenlight live-configuration and admission-control subsystem

Shallow embedding of the configuration loader (`internal/config/config.go`),
the three `OnConfigChange` watchers in `cmd/api/main.go`, the pool wrapper
(`internal/data/db.go`), and the `rateLimit` / `recoverPanic` middleware
(`cmd/api/middleware.go`, `cmd/api/errors.go`).

Time is measured in milliseconds, represented as `ℚ` so that fractional
token accrual of the token bucket is exact.
-/

namespace Greenlight

/-- `config.LimiterConfig`: the shared rate-limiter parameters
(`Rps float64`, `Burst int`, `Enabled bool`).  `cfg.limiter` is a pointer
shared between `main` and the middleware, so its fields are read fresh on
every request. -/
structure LimiterConfig where
  rps : ℚ
  burst : Int
  enabled : Bool
deriving Repr, DecidableEq

/-- `config.SMTPConfig`: mail credentials. -/
structure SMTPConfig where
  username : String
  password : String
  authAddress : String
  serverAddress : String
deriving Repr, DecidableEq

/-- `config.Config`: the single dynamically-reloaded configuration value
(`cfgDynamic` in `main`).  All three config sources unmarshal into this one
value; `loadTime` is the shared `LoadTime` field set by every successful
`LoadConfig` call.  `dbPoolMaxConnIdleTime` is Go's `time.Duration`,
kept as its nanosecond count. -/
structure Config where
  dbUsername : String
  dbPassword : String
  dbServer : String
  dbPort : Int
  dbName : String
  dbSSLMode : String
  dbPoolMaxConns : Int
  dbPoolMaxConnIdleTime : Int
  limiterRps : ℚ
  limiterBurst : Int
  limiterEnabled : Bool
  smtpUsername : String
  smtpPassword : String
  smtpAuthAddress : String
  smtpServerAddress : String
  loadTime : ℚ
deriving Repr, DecidableEq

/-- The fields held in `dynamic.env` (`LIMITER_RPS`, `LIMITER_BURST`,
`LIMITER_ENABLED`). -/
structure LimiterFacet where
  rps : ℚ
  burst : Int
  enabled : Bool
deriving Repr, DecidableEq

/-- The fields held in `dynamic_db_secret.env`. -/
structure DBFacet where
  username : String
  password : String
  server : String
  port : Int
  name : String
  sslMode : String
  poolMaxConns : Int
  poolMaxConnIdleTime : Int
deriving Repr, DecidableEq

/-- The fields held in `dynamic_smtp_secret.env`. -/
structure SMTPFacet where
  username : String
  password : String
  authAddress : String
  serverAddress : String
deriving Repr, DecidableEq

/-- One config source's decoded contents.  `viper.Unmarshal` only writes the
keys present in the watched file, so each source updates its own facet of the
shared `Config` value and leaves the other fields untouched. -/
inductive Facet where
  | limiterF (f : LimiterFacet)
  | dbF (f : DBFacet)
  | smtpF (f : SMTPFacet)
deriving Repr, DecidableEq

/-- Writing one source's decoded keys into the shared `Config`
(the effect of `v.Unmarshal(cfg)` for that source). -/
def applyFacet : Facet → Config → Config
  | .limiterF f, c =>
      { c with limiterRps := f.rps, limiterBurst := f.burst, limiterEnabled := f.enabled }
  | .dbF f, c =>
      { c with dbUsername := f.username, dbPassword := f.password, dbServer := f.server,
               dbPort := f.port, dbName := f.name, dbSSLMode := f.sslMode,
               dbPoolMaxConns := f.poolMaxConns, dbPoolMaxConnIdleTime := f.poolMaxConnIdleTime }
  | .smtpF f, c =>
      { c with smtpUsername := f.username, smtpPassword := f.password,
               smtpAuthAddress := f.authAddress, smtpServerAddress := f.serverAddress }

/-- `config.LoadConfig`: read and unmarshal one source into the shared
`Config`, then stamp `LoadTime = time.Now()`.  A `none` source stands for
`ReadInConfig` or `Unmarshal` failing, in which case the function returns
the error before touching `LoadTime`. -/
def LoadConfig (src : Option Facet) (cfg : Config) (now : ℚ) : Except String Config :=
  match src with
  | none => .error "config load failed"
  | some f => .ok { applyFacet f cfg with loadTime := now }

/-- Rendering of a Go `time.Duration` by `fmt.Sprintf("%s", ...)`.  The exact
digit format of `Duration.String` is irrelevant to every property proved
here (the connection string is only ever compared for whole-value equality
on equal inputs), so the nanosecond count is printed directly. -/
def durationString (d : Int) : String := toString d

/-- The `fmt.Sprintf` in `main` that assembles `cfg.dbConnString` from the
DB facet of the shared config. -/
def dbConnStringOf (c : Config) : String :=
  "postgres://" ++ c.dbUsername ++ ":" ++ c.dbPassword ++ "@" ++ c.dbServer ++ ":" ++
    toString c.dbPort ++ "/" ++ c.dbName ++ "?sslmode=" ++ c.dbSSLMode ++
    "&pool_max_conns=" ++ toString c.dbPoolMaxConns ++
    "&pool_max_conn_idle_time=" ++ durationString c.dbPoolMaxConnIdleTime

/-- Projection of the limiter facet out of the shared config, as `main`
copies it into `cfg.limiter`. -/
def limiterConfigOf (c : Config) : LimiterConfig :=
  { rps := c.limiterRps, burst := c.limiterBurst, enabled := c.limiterEnabled }

/-- Projection of the SMTP facet out of the shared config, as `main`
copies it into `cfg.smtp`. -/
def smtpConfigOf (c : Config) : SMTPConfig :=
  { username := c.smtpUsername, password := c.smtpPassword,
    authAddress := c.smtpAuthAddress, serverAddress := c.smtpServerAddress }

/-- The limiter facet currently stored in the shared config (used to state
"reapplying an unchanged snapshot"). -/
def limiterFacetOf (c : Config) : LimiterFacet :=
  { rps := c.limiterRps, burst := c.limiterBurst, enabled := c.limiterEnabled }

/-- The DB facet currently stored in the shared config. -/
def dbFacetOf (c : Config) : DBFacet :=
  { username := c.dbUsername, password := c.dbPassword, server := c.dbServer,
    port := c.dbPort, name := c.dbName, sslMode := c.dbSSLMode,
    poolMaxConns := c.dbPoolMaxConns, poolMaxConnIdleTime := c.dbPoolMaxConnIdleTime }

/-- The SMTP facet currently stored in the shared config. -/
def smtpFacetOf (c : Config) : SMTPFacet :=
  { username := c.smtpUsername, password := c.smtpPassword,
    authAddress := c.smtpAuthAddress, serverAddress := c.smtpServerAddress }

/-! ## Resource pool (`internal/data/db.go`)

A `*pgxpool.Pool` is identified by the generation at which it was built and
the connection string it was built from.  `PoolWorld` tracks, outside any one
wrapper, which generations have been allocated and which have been closed;
connectivity of a candidate pool's `Ping` probe is a function of its
connection string, passed in by the caller of the model. -/

/-- One `*pgxpool.Pool` value: its allocation generation and the connection
string it was created from. -/
structure Pool where
  gen : Nat
  connString : String
deriving Repr, DecidableEq

/-- `data.PoolWrapper`: wraps the single authoritative pool handle. -/
structure PoolWrapper where
  pool : Pool
deriving Repr, DecidableEq

/-- Bookkeeping for pool allocation and closure: the next fresh generation
and the generations whose `Close()` has been called. -/
structure PoolWorld where
  nextGen : Nat
  closedGens : List Nat
deriving Repr, DecidableEq

/-- `PoolWrapper.CreatePool`: build a candidate pool from `connString` and
`Ping` it within the 5 s timeout.  On a successful probe the wrapper's
`Pool` field is assigned the candidate; on probe failure the candidate is
closed and an error is returned, the wrapper's `Pool` field untouched.
`reachable` says which connection strings pass the probe; the returned
`Bool` is true when an error was returned. -/
def PoolWrapper.CreatePool (reachable : String → Bool) (pw : PoolWrapper) (w : PoolWorld)
    (connString : String) : PoolWrapper × PoolWorld × Bool :=
  let cand : Pool := { gen := w.nextGen, connString := connString }
  let w1 : PoolWorld := { w with nextGen := w.nextGen + 1 }
  if reachable connString then
    ({ pool := cand }, w1, false)
  else
    (pw, { w1 with closedGens := cand.gen :: w1.closedGens }, true)

/-! ## Token bucket (`golang.org/x/time/rate`, as used by `rateLimit`)

`rate.NewLimiter(r, b)` caches `r` and `b` inside the limiter value; the
middleware never calls `SetLimit`/`SetBurst`, so the cached values are fixed
for the life of the entry.  `Allow()` advances the token count by
`limit * elapsedSeconds` capped at `burst`, and admits — consuming one
token — iff `1 ≤ burst` and at least one token is available; a rejected
call leaves the limiter state unchanged. -/

/-- A `rate.Limiter` value: cached limit (tokens/second) and burst,
current token count, and the time (ms) of the last state update. -/
structure RateLimiter where
  limit : ℚ
  burst : Int
  tokens : ℚ
  lastMs : ℚ
deriving Repr, DecidableEq

/-- Token count after accruing `limit` tokens/second since `lastMs`,
capped at `burst` (the `advance` step of `rate.Limiter`). -/
def RateLimiter.advance (lim : RateLimiter) (t : ℚ) : ℚ :=
  min (lim.burst : ℚ) (lim.tokens + lim.limit * (t - lim.lastMs) / 1000)

/-- `rate.Limiter.Allow()` at time `t` (ms): admit and consume one token
when `1 ≤ burst` and at least one token has accrued; otherwise reject
without changing the limiter. -/
def RateLimiter.allow (lim : RateLimiter) (t : ℚ) : Bool × RateLimiter :=
  let tokens := lim.advance t
  if 1 ≤ lim.burst ∧ 1 ≤ tokens then
    (true, { lim with tokens := tokens - 1, lastMs := t })
  else
    (false, lim)

/-- `rate.NewLimiter(rps, burst)` created at time `t`.  The Go constructor
leaves `last` at the zero time so the first `advance` saturates the token
count at `burst`; seeding `tokens = burst` at creation time `t` is the same
observable state for every later call when `rps ≥ 0`. -/
def newLimiter (rps : ℚ) (burst : Int) (t : ℚ) : RateLimiter :=
  { limit := rps, burst := burst, tokens := (burst : ℚ), lastMs := t }

/-! ## Admission registry (`rateLimit` middleware closure) -/

/-- One entry of the `clients` map: the per-identity limiter and the
`lastSeen` timestamp. -/
structure ClientEntry where
  limiter : RateLimiter
  lastSeenMs : ℚ
deriving Repr, DecidableEq

/-- The `clients` map, as an association list with at most one entry per
identity (insertion happens only when lookup fails). -/
abbrev Registry := List (String × ClientEntry)

/-- Map lookup `clients[ip]`. -/
def Registry.find (reg : Registry) (ip : String) : Option ClientEntry :=
  match reg with
  | [] => none
  | (k, e) :: rest => if k = ip then some e else Registry.find rest ip

/-- Map update `clients[ip] = e` for a key already present. -/
def Registry.setEntry (reg : Registry) (ip : String) (e : ClientEntry) : Registry :=
  reg.map (fun p => if p.1 = ip then (ip, e) else p)

/-- The idle threshold of the sweep goroutine: `3 * time.Minute`, in ms. -/
def idleThresholdMs : ℚ := 180000

/-- The sweep period: `time.Sleep(time.Minute)`, in ms. -/
def sweepIntervalMs : ℚ := 60000

/-- One pass of the background sweep goroutine at time `now`: delete every
entry with `time.Since(client.lastSeen) > 3*time.Minute`. -/
def sweep (now : ℚ) (reg : Registry) : Registry :=
  reg.filter (fun p => decide (¬ idleThresholdMs < now - p.2.lastSeenMs))

/-- The request path of the `rateLimit` middleware at time `t` for client
identity `ip`: when the (freshly read) `Enabled` flag is false the request
is passed straight through; otherwise an entry is created on first sight —
seeded from the registry's current rps/burst — `lastSeen` is stamped, and
`Allow()` decides admission.  Returns the admission decision and the
updated registry. -/
def rateLimitStep (cfg : LimiterConfig) (ip : String) (t : ℚ) (reg : Registry) :
    Bool × Registry :=
  if cfg.enabled then
    let entry := (Registry.find reg ip).getD
      { limiter := newLimiter cfg.rps cfg.burst t, lastSeenMs := t }
    let reg1 :=
      match Registry.find reg ip with
      | some _ => reg
      | none => (ip, entry) :: reg
    let res := entry.limiter.allow t
    (res.1, Registry.setEntry reg1 ip { limiter := res.2, lastSeenMs := t })
  else
    (true, reg)

/-- Run a sequence of admission requests `(ip, t)` through `rateLimitStep`,
collecting the decisions. -/
def runRequests (cfg : LimiterConfig) (reqs : List (String × ℚ)) (reg : Registry) :
    List Bool × Registry :=
  match reqs with
  | [] => ([], reg)
  | (ip, t) :: rest =>
    let one := rateLimitStep cfg ip t reg
    let more := runRequests cfg rest one.2
    (one.1 :: more.1, more.2)

/-! ## Application state and the three `OnConfigChange` watchers -/

/-- The debounce window of every watcher:
`time.Duration(100*time.Millisecond)`, in ms. -/
def debounceWindowMs : ℚ := 100

/-- The mutable state of the running process that the watchers, the pool
wrapper and the middleware share: the one `cfgDynamic` value (with its
single shared `LoadTime`), the `cfg.limiter` pointee, `cfg.dbConnString`,
the `cfg.smtp` pointee, the pool wrapper with its allocation bookkeeping,
the `clients` registry, whether the process is still running (`os.Exit(1)`
sets `alive := false`), and the `logger.Error` entries. -/
structure AppState where
  cfgDynamic : Config
  limiter : LimiterConfig
  dbConnString : String
  smtp : SMTPConfig
  pw : PoolWrapper
  world : PoolWorld
  registry : Registry
  alive : Bool
  errLog : List String
deriving Repr, DecidableEq

/-- The `dynamic.env` watcher callback at event time `t`: if the gap from
the shared `LoadTime` exceeds the debounce window, reload the source;
on load failure log the error and exit; on success copy the limiter
fields into the shared `cfg.limiter` in place.  The `clients` registry is
never touched.  A dead process handles no events. -/
def onDynamicChange (t : ℚ) (src : Option LimiterFacet) (s : AppState) : AppState :=
  if s.alive then
    if debounceWindowMs < t - s.cfgDynamic.loadTime then
      match LoadConfig (src.map Facet.limiterF) s.cfgDynamic t with
      | .error e => { s with errLog := e :: s.errLog, alive := false }
      | .ok c => { s with cfgDynamic := c, limiter := limiterConfigOf c }
    else s
  else s

/-- The `dynamic_db_secret.env` watcher callback at event time `t`: past
the debounce gate it reloads the source (failure: log and exit), rebuilds
`cfg.dbConnString`, closes the active pool (`poolWrapper.Pool.Close()`),
and then calls `CreatePool`; if the candidate's probe fails the error is
logged and the process exits. -/
def onDBChange (reachable : String → Bool) (t : ℚ) (src : Option DBFacet) (s : AppState) :
    AppState :=
  if s.alive then
    if debounceWindowMs < t - s.cfgDynamic.loadTime then
      match LoadConfig (src.map Facet.dbF) s.cfgDynamic t with
      | .error e => { s with errLog := e :: s.errLog, alive := false }
      | .ok c =>
        let cs := dbConnStringOf c
        let w1 : PoolWorld := { s.world with closedGens := s.pw.pool.gen :: s.world.closedGens }
        let res := PoolWrapper.CreatePool reachable s.pw w1 cs
        if res.2.2 then
          { s with cfgDynamic := c, dbConnString := cs, pw := res.1, world := res.2.1,
                   errLog := "create pool failed" :: s.errLog, alive := false }
        else
          { s with cfgDynamic := c, dbConnString := cs, pw := res.1, world := res.2.1 }
    else s
  else s

/-- The `dynamic_smtp_secret.env` watcher callback at event time `t`: past
the debounce gate it reloads the source (failure: log and exit) and copies
the SMTP fields into the shared `cfg.smtp` in place. -/
def onSMTPChange (t : ℚ) (src : Option SMTPFacet) (s : AppState) : AppState :=
  if s.alive then
    if debounceWindowMs < t - s.cfgDynamic.loadTime then
      match LoadConfig (src.map Facet.smtpF) s.cfgDynamic t with
      | .error e => { s with errLog := e :: s.errLog, alive := false }
      | .ok c => { s with cfgDynamic := c, smtp := smtpConfigOf c }
    else s
  else s

/-- One request through the `rateLimit` middleware against the live state:
the `Enabled`/rps/burst parameters are read fresh from the shared
`cfg.limiter`. -/
def handleRequest (s : AppState) (ip : String) (t : ℚ) : Bool × AppState :=
  let res := rateLimitStep s.limiter ip t s.registry
  (res.1, { s with registry := res.2 })

/-- Whether an event at time `t` passes the debounce gate and so dispatches
a reload (`config.LoadConfig` is invoked). -/
def dispatchesReload (s : AppState) (t : ℚ) : Bool :=
  s.alive && decide (debounceWindowMs < t - s.cfgDynamic.loadTime)

/-- Feed a list of `dynamic.env` change events `(t, contents)` to the
watcher, counting how many dispatched a reload. -/
def reloadsDispatched (s : AppState) : List (ℚ × Option LimiterFacet) → Nat
  | [] => 0
  | (t, f) :: rest =>
    (if dispatchesReload s t then 1 else 0) +
      reloadsDispatched (onDynamicChange t f s) rest

/-! ## Panic recovery (`recoverPanic`, `serverErrorResponse`, `logError`) -/

/-- The part of an `*http.Request` the recovery path reads: `r.Method` and
`r.URL.RequestURI()`. -/
structure Request where
  method : String
  uri : String
deriving Repr, DecidableEq

/-- One `logger.Error` record emitted by `logError`: the error message with
the request's method and URI attributes. -/
structure LogEntry where
  msg : String
  method : String
  uri : String
deriving Repr, DecidableEq

/-- A response as observed by one caller: status code, body message,
response headers, and the log records emitted while producing it. -/
structure Response where
  status : Nat
  body : String
  headers : List (String × String)
  log : List LogEntry
deriving Repr, DecidableEq

/-- What a handler invocation does: either complete with a response, or
panic with a message. -/
inductive HandlerOutcome where
  | completed (resp : Response)
  | panicked (msg : String)
deriving Repr, DecidableEq

/-- `application.logError`: log the error message together with the request
method and URI. -/
def logError (r : Request) (err : String) : LogEntry :=
  { msg := err, method := r.method, uri := r.uri }

/-- The generic message sent by `serverErrorResponse`. -/
def serverErrorMessage : String :=
  "the server encountered a problem and could not process your request"

/-- `application.serverErrorResponse`: log the detailed error with request
context, then send a 500 response carrying the generic message. -/
def serverErrorResponse (r : Request) (err : String) : Response :=
  { status := 500, body := serverErrorMessage, headers := [], log := [logError r err] }

/-- `application.recoverPanic`: run the next handler; if it panicked,
set `Connection: close` and convert the panic value into a generic
server-error response for this one caller.  A completed outcome passes
through unchanged. -/
def recoverPanic (next : Request → HandlerOutcome) (r : Request) : HandlerOutcome :=
  match next r with
  | .panicked msg =>
    let resp := serverErrorResponse r msg
    .completed { resp with headers := ("Connection", "close") :: resp.headers }
  | .completed resp => .completed resp

/-! ## Spec-side model used for one refinement comparison -/

/-- Modelled from the spec: the admission decision as the spec describes it
for an already-existing bucket after a parameter reload — the entry keeps
its accumulated token count but adopts the registry's current (new) refill
rate and cap.  Defined from the spec's words only, to be compared with the
code's `rateLimitStep`, which uses the entry's creation-time parameters. -/
def specAdoptedAllow (cfg : LimiterConfig) (e : ClientEntry) (t : ℚ) : Bool :=
  let tokens := min (cfg.burst : ℚ) (e.limiter.tokens + cfg.rps * (t - e.limiter.lastMs) / 1000)
  decide (1 ≤ cfg.burst ∧ 1 ≤ tokens)

/-! ## Concrete fixtures for the executable scenarios -/

/-- A concrete baseline configuration: rate 2 tokens/s, burst 4, limiter
enabled, loaded at time 0. -/
def c0 : Config :=
  { dbUsername := "u", dbPassword := "p", dbServer := "h", dbPort := 5432, dbName := "d",
    dbSSLMode := "disable", dbPoolMaxConns := 10, dbPoolMaxConnIdleTime := 1800,
    limiterRps := 2, limiterBurst := 4, limiterEnabled := true,
    smtpUsername := "su", smtpPassword := "sp", smtpAuthAddress := "sa",
    smtpServerAddress := "ss", loadTime := 0 }

/-- The process state right after a successful startup with `c0`:
pool generation 0 active, nothing closed, empty registry. -/
def s0 : AppState :=
  { cfgDynamic := c0, limiter := limiterConfigOf c0, dbConnString := dbConnStringOf c0,
    smtp := smtpConfigOf c0, pw := { pool := { gen := 0, connString := dbConnStringOf c0 } },
    world := { nextGen := 1, closedGens := [] }, registry := [], alive := true, errLog := [] }

/-- Limiter parameters rate 2 tokens/s, burst 4, enabled. -/
def cfg24 : LimiterConfig := { rps := 2, burst := 4, enabled := true }

/-- New DB parameters arriving via a `dynamic_db_secret.env` edit. -/
def dbFacetNew : DBFacet :=
  { username := "u2", password := "p2", server := "h2", port := 5432, name := "d",
    sslMode := "disable", poolMaxConns := 10, poolMaxConnIdleTime := 1800 }

/-- Much faster limiter parameters arriving via a `dynamic.env` edit. -/
def limiterFacetFast : LimiterFacet := { rps := 1000, burst := 1000, enabled := true }

/-- `s0` after identity "A" has exhausted its 4-token bucket with four
admitted requests at time 0. -/
def sA : AppState :=
  { s0 with registry := (runRequests cfg24 [("A", 0), ("A", 0), ("A", 0), ("A", 0)] []).2 }

/-- A registry with identity "A" last seen at time 0 and identity "B" last
seen at time 120000 (2 minutes). -/
def regAB : Registry :=
  [("A", { limiter := newLimiter 2 4 0, lastSeenMs := 0 }),
   ("B", { limiter := newLimiter 2 4 0, lastSeenMs := 120000 })]

/-- A registry whose only identity "A" has zero remaining tokens. -/
def regZero : Registry :=
  [("A", { limiter := { limit := 2, burst := 4, tokens := 0, lastMs := 0 },
           lastSeenMs := 0 })]

/-- `s0` after each watcher re-fires with the unchanged contents of its own
source (events at 200, 400 and 600 ms, every connection string reachable):
the "reapply an unchanged snapshot" scenario. -/
def sReapplied : AppState :=
  onSMTPChange 600 (some (smtpFacetOf c0))
    (onDBChange (fun _ => true) 400 (some (dbFacetOf c0))
      (onDynamicChange 200 (some (limiterFacetOf c0)) s0))

/-! ## Theorems -/

/-- C1 counterexample: at a concrete state, a DB reload whose new pool
parameters fail the connectivity probe does not leave the old pool active
and the process running — the watcher closes the previously active pool
(generation 0) before probing, and exits the process on the probe failure.
This refutes the claim that "the previously active pool handle remains
active and usable ... and the process continues running". -/
theorem db_swap_failure_claim_false :
    (onDBChange (fun _ => false) 200 (some dbFacetNew) s0).alive = false ∧
    s0.pw.pool.gen ∈ (onDBChange (fun _ => false) 200 (some dbFacetNew) s0).world.closedGens := by
  refine ⟨?_, ?_⟩ <;>
    norm_num [onDBChange, s0, c0, debounceWindowMs, LoadConfig, PoolWrapper.CreatePool]

/-- C1 (amended): when a DB reload's new parameters fail the connectivity
probe, the candidate pool is discarded (closed) and the wrapper's `Pool`
field is left untouched — but the previously active pool has already been
closed before the candidate was built, the error is logged, and the
process exits instead of continuing. -/
theorem db_swap_failure_behavior (reachable : String → Bool) (t : ℚ) (f : DBFacet)
    (s : AppState) (ha : s.alive = true)
    (hg : debounceWindowMs < t - s.cfgDynamic.loadTime)
    (hr : reachable
      (dbConnStringOf { applyFacet (Facet.dbF f) s.cfgDynamic with loadTime := t }) = false) :
    (onDBChange reachable t (some f) s).alive = false ∧
    (onDBChange reachable t (some f) s).pw = s.pw ∧
    s.pw.pool.gen ∈ (onDBChange reachable t (some f) s).world.closedGens ∧
    s.world.nextGen ∈ (onDBChange reachable t (some f) s).world.closedGens ∧
    (onDBChange reachable t (some f) s).errLog = "create pool failed" :: s.errLog := by
  unfold onDBChange
  simp [ha, hg, hr, LoadConfig, PoolWrapper.CreatePool]

/-- Witness for `db_swap_failure_behavior` at the concrete fixture. -/
theorem db_swap_failure_behavior_witness :
    (onDBChange (fun _ => false) 200 (some dbFacetNew) s0).pw = s0.pw ∧
    (onDBChange (fun _ => false) 200 (some dbFacetNew) s0).errLog = ["create pool failed"] :=
  ⟨(db_swap_failure_behavior (fun _ => false) 200 dbFacetNew s0 rfl
      (by norm_num [s0, c0, debounceWindowMs]) rfl).2.1,
   (db_swap_failure_behavior (fun _ => false) 200 dbFacetNew s0 rfl
      (by norm_num [s0, c0, debounceWindowMs]) rfl).2.2.2.2⟩

/-- C2 counterexample: at a concrete state, a configuration load failure
during a runtime reload (source unreadable or decode error) terminates the
process — refuting the claim that it is "absorbed without terminating the
process". -/
theorem runtime_load_failure_claim_false :
    (onDynamicChange 200 none s0).alive = false := by
  norm_num [onDynamicChange, s0, c0, debounceWindowMs, LoadConfig]

/-- C2 (amended): a configuration load failure during a runtime reload is
logged and terminates the process, exactly like a startup load failure; the
in-memory snapshot and the derived limiter parameters and pool handle are
left as they were, but no process survives to keep using them. -/
theorem runtime_load_failure_fatal (t : ℚ) (s : AppState) (ha : s.alive = true)
    (hg : debounceWindowMs < t - s.cfgDynamic.loadTime) :
    (onDynamicChange t none s).alive = false ∧
    (onDynamicChange t none s).errLog = "config load failed" :: s.errLog ∧
    (onDynamicChange t none s).cfgDynamic = s.cfgDynamic ∧
    (onDynamicChange t none s).limiter = s.limiter ∧
    (onDynamicChange t none s).pw = s.pw := by
  unfold onDynamicChange
  simp [ha, hg, LoadConfig]

/-- Witness for `runtime_load_failure_fatal` at the concrete fixture. -/
theorem runtime_load_failure_fatal_witness :
    (onDynamicChange 200 none s0).alive = false ∧
    (onDynamicChange 200 none s0).errLog = ["config load failed"] :=
  ⟨(runtime_load_failure_fatal 200 s0 rfl (by norm_num [s0, c0, debounceWindowMs])).1,
   (runtime_load_failure_fatal 200 s0 rfl (by norm_num [s0, c0, debounceWindowMs])).2.1⟩

/-- C3 counterexample: at a concrete state, after identity "A" exhausted a
bucket created with rate 2/burst 4 and a reload raised the registry
parameters to rate 1000/burst 1000, the existing entry still carries its
creation-time limiter (limit 2, burst 4), and the next admission decision
at t = 300 ms is a rejection, while a bucket that had adopted the new rate
and cap (as the claim states, formalised by `specAdoptedAllow`) would
admit.  This refutes the claim that existing buckets adopt the new refill
rate and cap. -/
theorem limiter_params_not_adopted_claim_false :
    Registry.find (onDynamicChange 200 (some limiterFacetFast) sA).registry "A" =
      some { limiter := { limit := 2, burst := 4, tokens := 0, lastMs := 0 }, lastSeenMs := 0 } ∧
    (onDynamicChange 200 (some limiterFacetFast) sA).limiter.rps = 1000 ∧
    (handleRequest (onDynamicChange 200 (some limiterFacetFast) sA) "A" 300).1 = false ∧
    specAdoptedAllow (onDynamicChange 200 (some limiterFacetFast) sA).limiter
      { limiter := { limit := 2, burst := 4, tokens := 0, lastMs := 0 }, lastSeenMs := 0 }
      300 = true := by
  refine ⟨?_, ?_, ?_, ?_⟩ <;>
    norm_num [onDynamicChange, sA, s0, c0, cfg24, debounceWindowMs, LoadConfig, applyFacet,
      limiterConfigOf, limiterFacetFast, runRequests, rateLimitStep, Registry.find,
      Registry.setEntry, newLimiter, RateLimiter.allow, RateLimiter.advance, handleRequest,
      specAdoptedAllow, min_def]

/-- C3 (amended): a limiter-parameter reload leaves every existing bucket
entirely unchanged — accumulated token count, refill rate, and cap — and
the admission decision for an identity that already has an entry does not
depend on the registry's current rate/burst parameters at all (while the
limiter stays enabled); the new parameters apply only to the fresh-read
enabled flag and to entries created after the reload. -/
theorem reload_preserves_existing_buckets :
    (∀ (t : ℚ) (f : Option LimiterFacet) (s : AppState),
      (onDynamicChange t f s).registry = s.registry) ∧
    (∀ (cfg cfg2 : LimiterConfig) (ip : String) (t : ℚ) (reg : Registry) (e : ClientEntry),
      Registry.find reg ip = some e → cfg.enabled = true → cfg2.enabled = true →
      rateLimitStep cfg ip t reg = rateLimitStep cfg2 ip t reg) := by
  constructor
  · intro t f s
    unfold onDynamicChange
    split
    · split
      · split <;> rfl
      · rfl
    · rfl
  · intro cfg cfg2 ip t reg e hfind hc hc2
    unfold rateLimitStep
    simp [hc, hc2, hfind]

/-- Witness for `reload_preserves_existing_buckets` at concrete inputs. -/
theorem reload_preserves_existing_buckets_witness :
    (onDynamicChange 200 (some limiterFacetFast) sA).registry = sA.registry ∧
    rateLimitStep cfg24 "A" 300 regAB =
      rateLimitStep { rps := 1000, burst := 1000, enabled := true } "A" 300 regAB :=
  ⟨reload_preserves_existing_buckets.1 200 (some limiterFacetFast) sA,
   reload_preserves_existing_buckets.2 cfg24 { rps := 1000, burst := 1000, enabled := true }
     "A" 300 regAB { limiter := newLimiter 2 4 0, lastSeenMs := 0 }
     (by simp [regAB, Registry.find]) rfl rfl⟩

/-- C4: the token-bucket bound.  With rate 2 tokens/s and burst 4, six
requests from one identity at the same instant admit exactly the first
four and reject the last two; at 1 s later exactly two further requests
are admitted (a third is rejected).  In general the token count advances
by `rate` tokens/second since the last refill, capped at `burst`, and an
admitted call consumes exactly one token and stamps the refill time. -/
theorem token_bucket_bound :
    (runRequests cfg24
      [("A", 0), ("A", 0), ("A", 0), ("A", 0), ("A", 0), ("A", 0),
       ("A", 1000), ("A", 1000), ("A", 1000)] []).1 =
      [true, true, true, true, false, false, true, true, false] ∧
    (∀ (lim : RateLimiter) (t : ℚ),
      RateLimiter.advance lim t =
        min (lim.burst : ℚ) (lim.tokens + lim.limit * (t - lim.lastMs) / 1000)) ∧
    (∀ (lim : RateLimiter) (t : ℚ), (RateLimiter.allow lim t).1 = true →
      (RateLimiter.allow lim t).2.tokens = RateLimiter.advance lim t - 1 ∧
      (RateLimiter.allow lim t).2.lastMs = t) := by
  refine ⟨?_, fun lim t => rfl, ?_⟩
  · norm_num [runRequests, rateLimitStep, Registry.find, Registry.setEntry, newLimiter,
      RateLimiter.allow, RateLimiter.advance, cfg24, min_def]
  · intro lim t h
    unfold RateLimiter.allow at h ⊢
    by_cases hc : 1 ≤ lim.burst ∧ 1 ≤ RateLimiter.advance lim t
    · simp [hc]
    · simp [hc] at h

/-- Witness for `token_bucket_bound`: the consumption law applied to a
fresh bucket with rate 2, burst 4, admitted at its creation instant. -/
theorem token_bucket_bound_witness :
    (RateLimiter.allow (newLimiter 2 4 0) 0).2.tokens =
      RateLimiter.advance (newLimiter 2 4 0) 0 - 1 :=
  (token_bucket_bound.2.2 (newLimiter 2 4 0) 0
    (by norm_num [RateLimiter.allow, RateLimiter.advance, newLimiter, min_def])).1

/-- C5: with the registry's enabled flag false at the time of the call, the
admission check admits every request and leaves the registry untouched, for
every identity and every bucket state (including zero remaining tokens);
and because the flag is read fresh from the shared `cfg.limiter` on each
call, a reload that sets `enabled := false` yields admission for every
identity on every subsequent request. -/
theorem disabled_admits_all :
    (∀ (cfg : LimiterConfig) (ip : String) (t : ℚ) (reg : Registry),
      cfg.enabled = false → rateLimitStep cfg ip t reg = (true, reg)) ∧
    (∀ (s : AppState) (t : ℚ) (f : LimiterFacet) (ip : String) (t2 : ℚ),
      s.alive = true → debounceWindowMs < t - s.cfgDynamic.loadTime → f.enabled = false →
      (handleRequest (onDynamicChange t (some f) s) ip t2).1 = true) := by
  constructor
  · intro cfg ip t reg h
    unfold rateLimitStep
    simp [h]
  · intro s t f ip t2 ha hg hf
    unfold onDynamicChange handleRequest rateLimitStep
    simp [ha, hg, LoadConfig, applyFacet, limiterConfigOf, hf]

/-- Witness for `disabled_admits_all`: identity "A" with zero remaining
tokens is admitted when the flag is off, both directly and right after a
reload that turned the limiter off. -/
theorem disabled_admits_all_witness :
    rateLimitStep { rps := 2, burst := 4, enabled := false } "A" 300 regZero =
      (true, regZero) ∧
    (handleRequest
      (onDynamicChange 200 (some { rps := 2, burst := 4, enabled := false })
        { s0 with registry := regZero }) "A" 300).1 = true :=
  ⟨disabled_admits_all.1 { rps := 2, burst := 4, enabled := false } "A" 300 regZero rfl,
   disabled_admits_all.2 { s0 with registry := regZero } 200
     { rps := 2, burst := 4, enabled := false } "A" 300 rfl
     (by norm_num [s0, c0, debounceWindowMs]) rfl⟩

/-- C6 counterexample: at a concrete state, re-firing all three watchers
with the unchanged contents of their sources leaves the limiter parameters,
mail credentials and connection string unchanged — but the DB watcher still
closes the active pool (generation 0) and replaces it with a freshly
created pool (generation 1).  This refutes the claim that reapplying an
unchanged snapshot leaves the pool handle in place. -/
theorem idempotent_reload_claim_false :
    sReapplied.limiter = s0.limiter ∧ sReapplied.smtp = s0.smtp ∧
    sReapplied.dbConnString = s0.dbConnString ∧
    sReapplied.pw.pool.gen = 1 ∧ s0.pw.pool.gen = 0 ∧
    s0.pw.pool.gen ∈ sReapplied.world.closedGens := by
  refine ⟨?_, ?_, ?_, ?_, rfl, ?_⟩ <;>
    norm_num [sReapplied, onSMTPChange, onDBChange, onDynamicChange, s0, c0,
      debounceWindowMs, LoadConfig, applyFacet, limiterConfigOf, smtpConfigOf,
      limiterFacetOf, dbFacetOf, smtpFacetOf, dbConnStringOf, PoolWrapper.CreatePool,
      durationString]

/-- C6 (amended): reapplying an unchanged snapshot produces no observable
change to the limiter parameters, the registry, the mail credentials or the
connection string — but the DB facet handler unconditionally closes the
active pool and creates a new one, so the pool handle is replaced with a
fresh generation even when its parameters are unchanged. -/
theorem idempotent_reload_behavior :
    (∀ (t : ℚ) (s : AppState), s.alive = true →
      debounceWindowMs < t - s.cfgDynamic.loadTime →
      s.limiter = limiterConfigOf s.cfgDynamic →
      (onDynamicChange t (some (limiterFacetOf s.cfgDynamic)) s).limiter = s.limiter ∧
      (onDynamicChange t (some (limiterFacetOf s.cfgDynamic)) s).registry = s.registry) ∧
    (∀ (t : ℚ) (s : AppState), s.alive = true →
      debounceWindowMs < t - s.cfgDynamic.loadTime →
      s.smtp = smtpConfigOf s.cfgDynamic →
      (onSMTPChange t (some (smtpFacetOf s.cfgDynamic)) s).smtp = s.smtp) ∧
    (∀ (reachable : String → Bool) (t : ℚ) (s : AppState), s.alive = true →
      debounceWindowMs < t - s.cfgDynamic.loadTime →
      s.dbConnString = dbConnStringOf s.cfgDynamic →
      reachable (dbConnStringOf s.cfgDynamic) = true →
      (onDBChange reachable t (some (dbFacetOf s.cfgDynamic)) s).dbConnString =
        s.dbConnString ∧
      (onDBChange reachable t (some (dbFacetOf s.cfgDynamic)) s).pw.pool.gen =
        s.world.nextGen ∧
      s.pw.pool.gen ∈
        (onDBChange reachable t (some (dbFacetOf s.cfgDynamic)) s).world.closedGens ∧
      (onDBChange reachable t (some (dbFacetOf s.cfgDynamic)) s).alive = true) := by
  refine ⟨?_, ?_, ?_⟩
  · intro t s ha hg hsync
    unfold onDynamicChange
    simp [ha, hg, LoadConfig, applyFacet, limiterFacetOf, limiterConfigOf, hsync]
  · intro t s ha hg hsync
    unfold onSMTPChange
    simp [ha, hg, LoadConfig, applyFacet, smtpFacetOf, smtpConfigOf, hsync]
  · intro reachable t s ha hg hsync hr
    have key : (dbConnStringOf { applyFacet (Facet.dbF (dbFacetOf s.cfgDynamic)) s.cfgDynamic
        with loadTime := t }) = dbConnStringOf s.cfgDynamic := rfl
    unfold onDBChange
    simp [ha, hg, LoadConfig, PoolWrapper.CreatePool, key, hr, hsync]

/-- Witness for `idempotent_reload_behavior` at the concrete fixture. -/
theorem idempotent_reload_behavior_witness :
    (onDynamicChange 200 (some (limiterFacetOf s0.cfgDynamic)) s0).limiter = s0.limiter ∧
    (onSMTPChange 200 (some (smtpFacetOf s0.cfgDynamic)) s0).smtp = s0.smtp ∧
    (onDBChange (fun _ => true) 200 (some (dbFacetOf s0.cfgDynamic)) s0).pw.pool.gen =
      s0.world.nextGen :=
  ⟨(idempotent_reload_behavior.1 200 s0 rfl (by norm_num [s0, c0, debounceWindowMs]) rfl).1,
   idempotent_reload_behavior.2.1 200 s0 rfl (by norm_num [s0, c0, debounceWindowMs]) rfl,
   (idempotent_reload_behavior.2.2 (fun _ => true) 200 s0 rfl
     (by norm_num [s0, c0, debounceWindowMs]) rfl rfl).2.1⟩

/-- C7: two change notifications for the same source 50 ms apart, with a
100 ms debounce window, dispatch exactly one reload — the second event's
gap from the (shared) time of the reload applied for the first event is
below the window, so it is discarded. -/
theorem debounce_single_reload (s : AppState) (t1 t2 : ℚ) (f1 : LimiterFacet)
    (f2 : Option LimiterFacet) (ha : s.alive = true)
    (hg : debounceWindowMs < t1 - s.cfgDynamic.loadTime)
    (hclose : t2 - t1 ≤ debounceWindowMs) :
    reloadsDispatched s [(t1, some f1), (t2, f2)] = 1 := by
  have h2 : ¬ debounceWindowMs < t2 - t1 := not_lt.mpr hclose
  simp [reloadsDispatched, dispatchesReload, ha, hg, onDynamicChange, LoadConfig, h2]

/-- Witness for `debounce_single_reload`: events at 200 ms and 250 ms after
a load at time 0. -/
theorem debounce_single_reload_witness :
    reloadsDispatched s0 [(200, some (limiterFacetOf c0)), (250, some (limiterFacetOf c0))] = 1 :=
  debounce_single_reload s0 200 250 (limiterFacetOf c0) (some (limiterFacetOf c0)) rfl
    (by norm_num [s0, c0, debounceWindowMs]) (by norm_num [debounceWindowMs])

/-- C8: a sweep pass at time `now` retains exactly the entries whose
last-seen time is within the 3-minute idle threshold, and removes every
entry older than it; the threshold is 180000 ms and the sweep runs every
60000 ms.  Concretely, an entry last seen 4 minutes ago is absent after
the sweep while an entry seen 2 minutes ago is retained. -/
theorem idle_sweep_membership :
    (∀ (now : ℚ) (reg : Registry) (p : String × ClientEntry),
      p ∈ sweep now reg ↔ p ∈ reg ∧ ¬ idleThresholdMs < now - p.2.lastSeenMs) ∧
    idleThresholdMs = 180000 ∧ sweepIntervalMs = 60000 ∧
    sweep 240000 regAB = [("B", { limiter := newLimiter 2 4 0, lastSeenMs := 120000 })] := by
  refine ⟨?_, rfl, rfl, ?_⟩
  · intro now reg p
    simp [sweep, List.mem_filter]
  · norm_num [sweep, regAB, idleThresholdMs]

/-- Witness for `idle_sweep_membership`: the 2-minute-old entry "B" is
retained by the sweep at time 240000. -/
theorem idle_sweep_membership_witness :
    (("B", { limiter := newLimiter 2 4 0, lastSeenMs := (120000 : ℚ) }) : String × ClientEntry) ∈
      sweep 240000 regAB :=
  (idle_sweep_membership.1 240000 regAB
    ("B", { limiter := newLimiter 2 4 0, lastSeenMs := (120000 : ℚ) })).mpr
    ⟨by simp [regAB], by norm_num [idleThresholdMs]⟩

/-- C9: every panic raised by the wrapped handler is caught at the request
boundary — the middleware never lets a panic escape (so the process is not
terminated) — and is converted into a 500 response with the generic
server-error body, a `Connection: close` header, and a log entry carrying
the panic message together with the request's method and path. -/
theorem panic_recovered_to_500 (next : Request → HandlerOutcome) (r : Request) :
    (∀ msg, recoverPanic next r ≠ HandlerOutcome.panicked msg) ∧
    (∀ msg, next r = HandlerOutcome.panicked msg →
      recoverPanic next r = HandlerOutcome.completed
        { status := 500, body := serverErrorMessage,
          headers := [("Connection", "close")],
          log := [{ msg := msg, method := r.method, uri := r.uri }] }) := by
  constructor
  · intro msg
    cases hnr : next r <;> simp [recoverPanic, hnr]
  · intro msg h
    simp [recoverPanic, h, serverErrorResponse, logError]

/-- Witness for `panic_recovered_to_500`: a handler that panics with
"boom" on a GET request. -/
theorem panic_recovered_to_500_witness :
    recoverPanic (fun _ => HandlerOutcome.panicked "boom")
      { method := "GET", uri := "/v1/movies" } =
    HandlerOutcome.completed
      { status := 500, body := serverErrorMessage, headers := [("Connection", "close")],
        log := [{ msg := "boom", method := "GET", uri := "/v1/movies" }] } :=
  (panic_recovered_to_500 (fun _ => HandlerOutcome.panicked "boom")
    { method := "GET", uri := "/v1/movies" }).2 "boom" rfl

/-- C10: all three watchers consult the one shared `LoadTime`; a successful
reload of any source overwrites it with the load time, and a change event
for the DB source arriving within the debounce window of a successful load
of the `dynamic` source is discarded outright — the DB watcher performs no
reload and leaves the whole state (pool included) unchanged. -/
theorem shared_loadtime_cross_source_debounce :
    (∀ (t : ℚ) (f : LimiterFacet) (s : AppState), s.alive = true →
      debounceWindowMs < t - s.cfgDynamic.loadTime →
      (onDynamicChange t (some f) s).cfgDynamic.loadTime = t) ∧
    (∀ (t : ℚ) (f : SMTPFacet) (s : AppState), s.alive = true →
      debounceWindowMs < t - s.cfgDynamic.loadTime →
      (onSMTPChange t (some f) s).cfgDynamic.loadTime = t) ∧
    (∀ (reachable : String → Bool) (t1 t2 : ℚ) (f1 : LimiterFacet) (f2 : Option DBFacet)
      (s : AppState), s.alive = true →
      debounceWindowMs < t1 - s.cfgDynamic.loadTime →
      t2 - t1 ≤ debounceWindowMs →
      onDBChange reachable t2 f2 (onDynamicChange t1 (some f1) s) =
        onDynamicChange t1 (some f1) s) := by
  refine ⟨?_, ?_, ?_⟩
  · intro t f s ha hg
    unfold onDynamicChange
    simp [ha, hg, LoadConfig]
  · intro t f s ha hg
    unfold onSMTPChange
    simp [ha, hg, LoadConfig]
  · intro reachable t1 t2 f1 f2 s ha hg hclose
    have h2 : ¬ debounceWindowMs < t2 - t1 := not_lt.mpr hclose
    unfold onDynamicChange onDBChange
    simp [ha, hg, LoadConfig, h2]

/-- Witness for `shared_loadtime_cross_source_debounce` at the concrete
fixture: a DB event at 250 ms is discarded after a dynamic-source load at
200 ms. -/
theorem shared_loadtime_cross_source_debounce_witness :
    (onDynamicChange 200 (some (limiterFacetOf c0)) s0).cfgDynamic.loadTime = 200 ∧
    onDBChange (fun _ => true) 250 (some (dbFacetOf c0))
        (onDynamicChange 200 (some (limiterFacetOf c0)) s0) =
      onDynamicChange 200 (some (limiterFacetOf c0)) s0 :=
  ⟨shared_loadtime_cross_source_debounce.1 200 (limiterFacetOf c0) s0 rfl
     (by norm_num [s0, c0, debounceWindowMs]),
   shared_loadtime_cross_source_debounce.2.2 (fun _ => true) 200 250 (limiterFacetOf c0)
     (some (dbFacetOf c0)) s0 rfl (by norm_num [s0, c0, debounceWindowMs])
     (by norm_num [debounceWindowMs])⟩

end Greenlight
